import Mathlib

/-!
Shallow embedding of the verify-privacy-sdk-js core (src/lib/privacy.js).

The two public operations are modelled as pure functions parameterised by the
outcome of the single external-collaborator call each of them performs:

* assess: validates the shape of the resolved value, then reduces the
  per-item assessment list to one overall status by the loop at
  privacy.js lines 124-146; the catch block at lines 147-156 is shared
  with getConsentMetadata (lines 296-305).
* getConsentMetadata: the request-item loop at lines 275-285 collects the
  distinct purpose set and the requested slot-key set and fills the
  accessTypeId default in place; the remaining calls are collaborator
  operations.

JavaScript conventions are made explicit: an absent or null field is an
Option that is none; a thrown TypeError is the error side of Except; a
promise that rejects is Except.error, one that resolves is Except.ok.
-/

/-- A denial reason inside a result entry: messageId and messageDescription
may each be absent. -/
structure Reason where
  messageId : Option String := none
  messageDescription : Option String := none
deriving DecidableEq

/-- One entry of the result array of an assessment item. A missing approved
field is falsy in the source, hence modelled as false; reason may be absent. -/
structure ResultEntry where
  approved : Bool := false
  reason : Option Reason := none
deriving DecidableEq

/-- One element of the array resolved by requestApproval. Only the result
field is inspected by the aggregation loop; the identifying fields are kept
for fidelity to the data model. A none result models an absent (falsy)
result field; some [] models a present but empty result array. -/
structure AssessItem where
  purposeId : Option String := none
  accessTypeId : Option String := none
  attributeId : Option String := none
  result : Option (List ResultEntry) := none
deriving DecidableEq

/-- A JavaScript TypeError raised by dereferencing undefined. -/
inductive JsTypeError where
  | mk
deriving DecidableEq

/-- An abstract structured remote error payload (the value of error.response.data
when present and truthy). -/
structure ErrPayload where
  body : String
deriving DecidableEq

/-- The response field of a collaborator failure object; its data field may
be absent or falsy (none). -/
structure ErrResponse where
  data : Option ErrPayload := none
deriving DecidableEq

/-- A failure object a collaborator promise rejects with; it may or may not
carry a response field. -/
structure JsErrorObj where
  response : Option ErrResponse := none
deriving DecidableEq

/-- The data object built for the INVALID_DATATYPE error result. -/
structure ErrorData where
  messageId : String
  messageDescription : String
deriving DecidableEq

/-- An abstract consent-metadata value produced by the collaborator pipeline. -/
structure MetadataValue where
  body : String
deriving DecidableEq

/-- The JSON object resolved by assess or getConsentMetadata. Fields that the
source only sets on some paths are Options defaulting to none (absent). -/
structure JsonResp where
  status : String
  data : Option ErrorData := none
  assessment : Option (List AssessItem) := none
  detail : Option ErrPayload := none
  metadata : Option MetadataValue := none
deriving DecidableEq

/-- The value requestApproval resolves with: either an array of items or a
non-array value, of which only the typeof tag matters to assess. -/
inductive ApprovalResponse where
  | arr (items : List AssessItem)
  | nonArray (typeName : String)
deriving DecidableEq

/-- Outcome of the awaited collaborator call: the promise resolves with a
value or rejects with a failure object. -/
inductive CollabOutcome (α : Type) where
  | resolve (v : α)
  | reject (e : JsErrorObj)

/-- What the catch block of assess or getConsentMetadata can receive: a
collaborator failure object, or a TypeError raised inside the try block. -/
inductive Thrown where
  | fromCollab (e : JsErrorObj)
  | typeError

/-- One iteration of the aggregation loop (privacy.js lines 125-140) on the
current status. Dereferencing the first entry of an empty result array, or
the reason of an unapproved first entry that has none, throws a TypeError. -/
def scanItem (status : Option String) (ia : AssessItem) : Except JsTypeError (Option String) :=
  match ia.result with
  | none => .ok status
  | some [] => .error .mk
  | some (r :: _) =>
    if r.approved then
      .ok (if status = none then some "approved" else status)
    else
      match r.reason with
      | none => .error .mk
      | some re =>
        if re.messageId = some "CSIBT0033I" then
          .ok (some "consent")
        else
          .ok status

/-- The whole aggregation loop, folding scanItem from an initial status
(null at the top of the loop in the source). -/
def assessScan (init : Option String) (l : List AssessItem) : Except JsTypeError (Option String) :=
  l.foldlM scanItem init

/-- The catch block shared by assess (lines 147-156) and getConsentMetadata
(lines 296-305): it reads error.response.data, so a caught value without a
response field makes the catch block itself throw, rejecting the promise. -/
def catchBlock (caught : Thrown) : Except JsTypeError JsonResp :=
  match caught with
  | .typeError => .error .mk
  | .fromCollab e =>
    match e.response with
    | none => .error .mk
    | some resp =>
      match resp.data with
      | some d => .ok { status := "error", detail := some d }
      | none => .ok { status := "error" }

/-- The assess operation (privacy.js lines 104-157) as a function of the
requestApproval outcome. Except.error is a rejected promise. -/
def assessRun (outcome : CollabOutcome ApprovalResponse) : Except JsTypeError JsonResp :=
  match outcome with
  | .reject e => catchBlock (.fromCollab e)
  | .resolve (.nonArray t) =>
    .ok { status := "error"
          data := some { messageId := "INVALID_DATATYPE"
                         messageDescription :=
                           "\x27assessment\x27 is expected to be an array. Received " ++ t } }
  | .resolve (.arr items) =>
    match assessScan none items with
    | .ok st => .ok { status := st.getD "denied", assessment := some items }
    | .error _ => catchBlock .typeError

/-- First result entry exists and is approved (the guard of the first branch
of the loop). -/
def approvedFirst (ia : AssessItem) : Bool :=
  match ia.result with
  | some (r :: _) => r.approved
  | _ => false

/-- First result entry exists, is not approved, and carries reason messageId
CSIBT0033I (the guard of the second branch of the loop). -/
def consentTrigger (ia : AssessItem) : Bool :=
  match ia.result with
  | some (r :: _) =>
    !r.approved &&
      (match r.reason with
       | some re => re.messageId = some "CSIBT0033I"
       | none => false)
  | _ => false

/-- The silently skipped shapes named by the spec: the result field is
absent, or the first entry is unapproved with a reason object missing its
messageId. -/
def skippedItem (ia : AssessItem) : Bool :=
  match ia.result with
  | none => true
  | some [] => false
  | some (r :: _) =>
    !r.approved &&
      (match r.reason with
       | some re => re.messageId = none
       | none => false)

/-- A well-formed AssessmentResult in the sense of the data model: the
result array is non-empty and its first entry is approved or carries a
reason with a messageId. -/
def wellFormed (ia : AssessItem) : Bool :=
  match ia.result with
  | some (r :: _) =>
    r.approved ||
      (match r.reason with
       | some re => re.messageId.isSome
       | none => false)
  | _ => false

/-- A request item supplied by the caller of the public operations. -/
structure RequestItem where
  purposeId : String
  accessTypeId : Option String := none
  attributeId : Option String := none
  attributeValue : Option String := none
deriving DecidableEq

/-- Modelled from the spec: StringUtils.getOrDefault (src/utils/stringUtils.js
is not part of the given sources). Per the spec a missing attributeId or
accessTypeId contributes the empty string to the slot key, so the function
returns the value when present and the fallback otherwise. -/
def getOrDefault (v : Option String) (fallback : String) : String :=
  v.getD fallback

/-- Insertion into a JavaScript Set: keeps insertion order and drops
duplicates. -/
def insertSet (l : List String) (s : String) : List String :=
  if s ∈ l then l else l ++ [s]

/-- The in-place default fill at privacy.js lines 280-282: a falsy or null
accessTypeId (absent, null, or the empty string) is replaced by the literal
default. -/
def normalizeAccessType (item : RequestItem) : RequestItem :=
  if item.accessTypeId = none ∨ item.accessTypeId = some "" then
    { item with accessTypeId := some "default" }
  else
    item

/-- The requested slot key of an item (privacy.js line 284): purposeId,
a slash, the attributeId or empty, a dot, the accessTypeId or empty. -/
def slotKey (item : RequestItem) : String :=
  item.purposeId ++ "/" ++ getOrDefault item.attributeId "" ++ "."
    ++ getOrDefault item.accessTypeId ""

/-- The state built by the request-item loop of getConsentMetadata: the
purposes set, the itemNameSet, and the caller array as mutated so far. -/
structure CollectState where
  purposes : List String
  itemNameSet : List String
  items : List RequestItem
deriving DecidableEq

/-- One iteration of the loop at privacy.js lines 277-285: record the
purpose, fill the accessTypeId default in place, record the slot key. -/
def collectStep (st : CollectState) (item : RequestItem) : CollectState :=
  let item2 := normalizeAccessType item
  { purposes := insertSet st.purposes item.purposeId
    itemNameSet := insertSet st.itemNameSet (slotKey item2)
    items := st.items ++ [item2] }

/-- The whole request-item loop of getConsentMetadata. -/
def collectMeta (items : List RequestItem) : CollectState :=
  items.foldl collectStep { purposes := [], itemNameSet := [], items := [] }

/-- The getConsentMetadata operation (privacy.js lines 269-306) as a function
of the caller items and the combined outcome of the collaborator metadata
pipeline. On resolution it also returns the caller array as mutated by the
loop, which runs before the await. -/
def getConsentMetadataRun (items : List RequestItem)
    (outcome : CollabOutcome MetadataValue) :
    Except JsTypeError (JsonResp × List RequestItem) :=
  let st := collectMeta items
  match outcome with
  | .resolve m => .ok ({ status := "done", metadata := some m }, st.items)
  | .reject e => (catchBlock (.fromCollab e)).map (fun r => (r, st.items))

/-- Thrown by the constructor when a required field is missing. -/
structure ConfigurationError where
  message : String
deriving DecidableEq

/-- The configuration object; tenantUrl may be absent. -/
structure Config where
  tenantUrl : Option String := none
deriving DecidableEq

/-- The auth object; accessToken may be absent. -/
structure Auth where
  accessToken : Option String := none
deriving DecidableEq

/-- The optional context object passed at construction. -/
structure SubjectContext where
  subjectId : Option String := none
  isExternalSubject : Option Bool := none
  ipAddress : Option String := none
deriving DecidableEq

/-- A constructed Privacy instance: the three inputs stored unchanged. -/
structure PrivacyInstance where
  config : Config
  auth : Auth
  context : SubjectContext
deriving DecidableEq

/-- Modelled from the spec: StringUtils.has (src/utils/stringUtils.js is not
part of the given sources). Per the spec the constructor fails exactly when
the configuration lacks the tenant endpoint field or the auth object lacks
the credential field, so has tests field presence. -/
def hasField (v : Option String) : Bool :=
  v.isSome

/-- The constructor (privacy.js lines 32-46): check tenantUrl and accessToken,
then store config, auth and context; no collaborator is touched. -/
def constructPrivacy (config : Config) (auth : Auth) (context : SubjectContext) :
    Except ConfigurationError PrivacyInstance :=
  if !hasField config.tenantUrl then
    .error { message := "Cannot find property \x27tenantUrl\x27 in configuration settings." }
  else if !hasField auth.accessToken then
    .error { message := "Cannot find property \x27accessToken\x27 in auth" }
  else
    .ok { config := config, auth := auth, context := context }

/-! ### Concrete sample items used by the claim witnesses -/

/-- A concrete item whose first result entry is approved. -/
def approvedItemEx : AssessItem := { result := some [{ approved := true }] }

/-- A concrete item whose first result entry is denied with a reason other
than the consent sentinel. -/
def deniedItemEx : AssessItem :=
  { result := some [{ approved := false, reason := some { messageId := some "CSIBT0034I" } }] }

/-- A concrete item denied with the consent-required sentinel code. -/
def consentItemEx : AssessItem :=
  { result := some [{ approved := false, reason := some { messageId := some "CSIBT0033I" } }] }

/-- A concrete item whose result field is a present but empty array. -/
def emptyResultItemEx : AssessItem := { result := some [] }

/-! ### Helper lemmas about the aggregation loop -/

theorem assessScan_nil (init : Option String) : assessScan init [] = .ok init := rfl

theorem assessScan_cons (init : Option String) (a : AssessItem) (l : List AssessItem) :
    assessScan init (a :: l) = (scanItem init a) >>= (fun st => assessScan st l) := by
  simp [assessScan, List.foldlM_cons]

theorem assessScan_append (init : Option String) (l1 l2 : List AssessItem) :
    assessScan init (l1 ++ l2) = (assessScan init l1) >>= (fun st => assessScan st l2) := by
  simp [assessScan, List.foldlM_append]

theorem scanItem_consentTrigger (st : Option String) (ia : AssessItem)
    (h : consentTrigger ia = true) : scanItem st ia = .ok (some "consent") := by
  cases hres : ia.result with
  | none => simp [consentTrigger, hres] at h
  | some l =>
    cases l with
    | nil => simp [consentTrigger, hres] at h
    | cons r rs =>
      simp only [consentTrigger, hres] at h
      cases hre : r.reason with
      | none => simp [hre] at h
      | some re =>
        simp only [hre, Bool.and_eq_true, Bool.not_eq_true', decide_eq_true_eq] at h
        obtain ⟨hap, hmid⟩ := h
        simp [scanItem, hres, hap, hre, hmid]

theorem scanItem_approvedFirst (st : Option String) (ia : AssessItem)
    (h : approvedFirst ia = true) :
    scanItem st ia = .ok (if st = none then some "approved" else st) := by
  cases hres : ia.result with
  | none => simp [approvedFirst, hres] at h
  | some l =>
    cases l with
    | nil => simp [approvedFirst, hres] at h
    | cons r rs =>
      simp only [approvedFirst, hres] at h
      simp [scanItem, hres, h]

theorem scanItem_neutral (st : Option String) (ia : AssessItem)
    (hwf : wellFormed ia = true) (ha : approvedFirst ia = false)
    (hc : consentTrigger ia = false) : scanItem st ia = .ok st := by
  cases hres : ia.result with
  | none => simp [wellFormed, hres] at hwf
  | some l =>
    cases l with
    | nil => simp [wellFormed, hres] at hwf
    | cons r rs =>
      simp only [approvedFirst, hres] at ha
      simp only [wellFormed, hres] at hwf
      simp only [consentTrigger, hres] at hc
      cases hre : r.reason with
      | none => simp [hre, ha] at hwf
      | some re =>
        simp only [hre, ha, Bool.not_false, Bool.true_and, decide_eq_false_iff_not] at hc
        simp [scanItem, hres, ha, hre, hc]

theorem scanItem_wellFormed_ok (st : Option String) (ia : AssessItem)
    (hwf : wellFormed ia = true) : ∃ st2, scanItem st ia = .ok st2 := by
  cases ha : approvedFirst ia with
  | true => exact ⟨_, scanItem_approvedFirst st ia ha⟩
  | false =>
    cases hc : consentTrigger ia with
    | true => exact ⟨_, scanItem_consentTrigger st ia hc⟩
    | false => exact ⟨st, scanItem_neutral st ia hwf ha hc⟩

theorem scanItem_skipped (st : Option String) (ia : AssessItem)
    (h : skippedItem ia = true) : scanItem st ia = .ok st := by
  cases hres : ia.result with
  | none => simp [scanItem, hres]
  | some l =>
    cases l with
    | nil => simp [skippedItem, hres] at h
    | cons r rs =>
      simp only [skippedItem, hres] at h
      cases hre : r.reason with
      | none => simp [hre] at h
      | some re =>
        simp only [hre, Bool.and_eq_true, Bool.not_eq_true', decide_eq_true_eq] at h
        obtain ⟨hap, hmid⟩ := h
        simp [scanItem, hres, hap, hre, hmid]

theorem scanItem_emptyResult (st : Option String) (ia : AssessItem)
    (h : ia.result = some []) : scanItem st ia = .error .mk := by
  simp [scanItem, h]

theorem assessScan_consent_stable (l : List AssessItem)
    (hwf : ∀ ia ∈ l, wellFormed ia = true) :
    assessScan (some "consent") l = .ok (some "consent") := by
  induction l with
  | nil => rfl
  | cons a t ih =>
    rw [assessScan_cons]
    have hstep : scanItem (some "consent") a = .ok (some "consent") := by
      cases hap : approvedFirst a with
      | true => rw [scanItem_approvedFirst _ _ hap]; simp
      | false =>
        cases hc : consentTrigger a with
        | true => exact scanItem_consentTrigger _ _ hc
        | false => exact scanItem_neutral _ _ (hwf a (by simp)) hap hc
    rw [hstep]
    exact ih (fun ia hia => hwf ia (by simp [hia]))

theorem assessScan_consent (l : List AssessItem) :
    ∀ init : Option String, (∀ ia ∈ l, wellFormed ia = true) →
      (∃ ia ∈ l, consentTrigger ia = true) →
      assessScan init l = .ok (some "consent") := by
  induction l with
  | nil =>
    intro init hwf hex
    simp at hex
  | cons a t ih =>
    intro init hwf hex
    rw [assessScan_cons]
    obtain ⟨ia, hmem, htrig⟩ := hex
    rcases List.mem_cons.mp hmem with heq | hmem2
    · subst heq
      rw [scanItem_consentTrigger init ia htrig]
      exact assessScan_consent_stable t (fun x hx => hwf x (by simp [hx]))
    · obtain ⟨st2, hst2⟩ := scanItem_wellFormed_ok init a (hwf a (by simp))
      rw [hst2]
      exact ih st2 (fun x hx => hwf x (by simp [hx])) ⟨ia, hmem2, htrig⟩

theorem assessScan_neutral (l : List AssessItem) :
    ∀ init : Option String,
      (∀ ia ∈ l, wellFormed ia = true ∧ approvedFirst ia = false ∧ consentTrigger ia = false) →
      assessScan init l = .ok init := by
  induction l with
  | nil => intro init h; rfl
  | cons a t ih =>
    intro init h
    rw [assessScan_cons]
    obtain ⟨hwf, ha, hc⟩ := h a (by simp)
    rw [scanItem_neutral init a hwf ha hc]
    exact ih init (fun x hx => h x (by simp [hx]))

theorem scanItem_ok_none (st : Option String) (ia : AssessItem)
    (h : scanItem st ia = .ok none) :
    st = none ∧ approvedFirst ia = false ∧ consentTrigger ia = false := by
  cases hres : ia.result with
  | none =>
    simp [scanItem, hres] at h
    exact ⟨h, by simp [approvedFirst, hres], by simp [consentTrigger, hres]⟩
  | some l =>
    cases l with
    | nil => simp [scanItem, hres] at h
    | cons r rs =>
      cases hap : r.approved with
      | true =>
        rw [scanItem_approvedFirst st ia (by simp [approvedFirst, hres, hap])] at h
        simp only [Except.ok.injEq] at h
        cases hst : st with
        | none => rw [hst] at h; simp at h
        | some s => rw [hst] at h; simp at h
      | false =>
        cases hre : r.reason with
        | none => simp [scanItem, hres, hap, hre] at h
        | some re =>
          by_cases hmid : re.messageId = some "CSIBT0033I"
          · simp [scanItem, hres, hap, hre, hmid] at h
          · simp only [scanItem, hres, hap, hre, if_neg hmid, Bool.false_eq_true,
              if_false, Except.ok.injEq] at h
            exact ⟨h, by simp [approvedFirst, hres, hap],
              by simp [consentTrigger, hres, hap, hre, hmid]⟩

theorem assessScan_ok_none (l : List AssessItem) :
    ∀ init : Option String, assessScan init l = .ok none →
      init = none ∧ ∀ ia ∈ l, approvedFirst ia = false ∧ consentTrigger ia = false := by
  induction l with
  | nil =>
    intro init h
    rw [assessScan_nil] at h
    simp only [Except.ok.injEq] at h
    exact ⟨h, by simp⟩
  | cons a t ih =>
    intro init h
    rw [assessScan_cons] at h
    cases hsc : scanItem init a with
    | error e =>
      rw [hsc] at h
      exact Except.noConfusion h
    | ok st1 =>
      rw [hsc] at h
      replace h : assessScan st1 t = .ok none := h
      obtain ⟨hst1, htail⟩ := ih st1 h
      subst hst1
      obtain ⟨hinit, hhead⟩ := scanItem_ok_none init a hsc
      refine ⟨hinit, ?_⟩
      intro ia hia
      rcases List.mem_cons.mp hia with heq | hmem
      · subst heq; exact hhead
      · exact htail ia hmem

theorem scanItem_ok_range (st st2 : Option String) (ia : AssessItem)
    (h : scanItem st ia = .ok st2) :
    st2 = st ∨ st2 = some "approved" ∨ st2 = some "consent" := by
  cases hres : ia.result with
  | none =>
    simp [scanItem, hres] at h
    exact Or.inl h.symm
  | some l =>
    cases l with
    | nil => simp [scanItem, hres] at h
    | cons r rs =>
      cases hap : r.approved with
      | true =>
        rw [scanItem_approvedFirst st ia (by simp [approvedFirst, hres, hap])] at h
        simp only [Except.ok.injEq] at h
        split at h
        · exact Or.inr (Or.inl h.symm)
        · exact Or.inl h.symm
      | false =>
        cases hre : r.reason with
        | none => simp [scanItem, hres, hap, hre] at h
        | some re =>
          by_cases hmid : re.messageId = some "CSIBT0033I"
          · simp only [scanItem, hres, hap, hre, if_pos hmid, Bool.false_eq_true,
              if_false, Except.ok.injEq] at h
            exact Or.inr (Or.inr h.symm)
          · simp only [scanItem, hres, hap, hre, if_neg hmid, Bool.false_eq_true,
              if_false, Except.ok.injEq] at h
            exact Or.inl h.symm

theorem assessScan_ok_range (l : List AssessItem) :
    ∀ init st : Option String, assessScan init l = .ok st →
      st = init ∨ st = some "approved" ∨ st = some "consent" := by
  induction l with
  | nil =>
    intro init st h
    rw [assessScan_nil] at h
    simp only [Except.ok.injEq] at h
    exact Or.inl h.symm
  | cons a t ih =>
    intro init st h
    rw [assessScan_cons] at h
    cases hsc : scanItem init a with
    | error e =>
      rw [hsc] at h
      exact Except.noConfusion h
    | ok mid =>
      rw [hsc] at h
      replace h : assessScan mid t = .ok st := h
      rcases ih mid st h with h1 | h1 | h1
      · subst h1
        exact scanItem_ok_range init st a hsc
      · exact Or.inr (Or.inl h1)
      · exact Or.inr (Or.inr h1)

theorem assessScan_error_of_empty (l : List AssessItem) :
    ∀ init : Option String, (∃ ia ∈ l, ia.result = some []) →
      assessScan init l = .error .mk := by
  induction l with
  | nil => intro init h; simp at h
  | cons a t ih =>
    intro init h
    rw [assessScan_cons]
    obtain ⟨ia, hmem, hia⟩ := h
    rcases List.mem_cons.mp hmem with heq | hmem2
    · subst heq
      rw [scanItem_emptyResult init ia hia]
      rfl
    · cases hsc : scanItem init a with
      | error e => cases e; rfl
      | ok st1 => exact ih st1 ⟨ia, hmem2, hia⟩

theorem assessScan_skip (init : Option String) (l1 l2 : List AssessItem) (ia : AssessItem)
    (h : skippedItem ia = true) :
    assessScan init (l1 ++ ia :: l2) = assessScan init (l1 ++ l2) := by
  rw [assessScan_append, assessScan_append]
  cases hx : assessScan init l1 with
  | error e => rfl
  | ok st =>
    show assessScan st (ia :: l2) = assessScan st l2
    rw [assessScan_cons, scanItem_skipped st ia h]
    rfl

/-! ### Helper lemmas about the getConsentMetadata request-item loop -/

theorem mem_insertSet (l : List String) (x s : String) :
    s ∈ insertSet l x ↔ s ∈ l ∨ s = x := by
  unfold insertSet
  split
  · constructor
    · exact Or.inl
    · rintro (h | rfl)
      · exact h
      · assumption
  · simp [List.mem_append]

theorem insertSet_nodup (l : List String) (x : String) (h : l.Nodup) :
    (insertSet l x).Nodup := by
  unfold insertSet
  split
  · exact h
  · rename_i hx
    simp [List.nodup_append, h, hx]

theorem collectMeta_items_aux (items : List RequestItem) (st : CollectState) :
    (items.foldl collectStep st).items = st.items ++ items.map normalizeAccessType := by
  induction items generalizing st with
  | nil => simp
  | cons a t ih =>
    rw [List.foldl_cons, ih]
    simp [collectStep]

theorem collectMeta_keys_aux (items : List RequestItem) (st : CollectState) (s : String) :
    s ∈ (items.foldl collectStep st).itemNameSet ↔
      s ∈ st.itemNameSet ∨ ∃ item ∈ items, s = slotKey (normalizeAccessType item) := by
  induction items generalizing st with
  | nil => simp
  | cons a t ih =>
    rw [List.foldl_cons, ih]
    show _ ∈ insertSet st.itemNameSet (slotKey (normalizeAccessType a)) ∨ _ ↔ _
    rw [mem_insertSet]
    constructor
    · rintro ((h | h) | ⟨item, hmem, hkey⟩)
      · exact Or.inl h
      · exact Or.inr ⟨a, by simp, h⟩
      · exact Or.inr ⟨item, by simp [hmem], hkey⟩
    · rintro (h | ⟨item, hmem, hkey⟩)
      · exact Or.inl (Or.inl h)
      · rcases List.mem_cons.mp hmem with heq | hmem2
        · subst heq
          exact Or.inl (Or.inr hkey)
        · exact Or.inr ⟨item, hmem2, hkey⟩

theorem collectMeta_nodup_aux (items : List RequestItem) (st : CollectState)
    (h : st.itemNameSet.Nodup) :
    ((items.foldl collectStep st).itemNameSet).Nodup := by
  induction items generalizing st with
  | nil => exact h
  | cons a t ih => exact ih _ (insertSet_nodup _ _ h)

/-! ### Claim theorems -/

/-- Reduction of assessRun on a resolved array, used to rewrite under the
outer match. -/
theorem assessRun_arr (l : List AssessItem) :
    assessRun (.resolve (.arr l)) =
      match assessScan none l with
      | .ok st => .ok { status := st.getD "denied", assessment := some l }
      | .error _ => catchBlock .typeError := rfl

/-- C1: for every well-formed array resolved by requestApproval that contains
at least one item whose first result entry is not approved and whose reason
messageId equals CSIBT0033I, assess resolves with overall status consent,
no matter how many other items have an approved first entry: the loop only
upgrades from approved to consent and never downgrades. -/
theorem c1_consent_precedence (l : List AssessItem)
    (hwf : ∀ ia ∈ l, wellFormed ia = true)
    (hex : ∃ ia ∈ l, consentTrigger ia = true) :
    assessRun (.resolve (.arr l)) = .ok { status := "consent", assessment := some l } := by
  rw [assessRun_arr, assessScan_consent l none hwf hex]
  rfl

/-- Witness for C1: a concrete response holding an approved item before and
after the consent-required item still yields status consent. -/
theorem c1_witness :
    assessRun (.resolve (.arr [approvedItemEx, consentItemEx, approvedItemEx]))
      = .ok { status := "consent",
              assessment := some [approvedItemEx, consentItemEx, approvedItemEx] } :=
  c1_consent_precedence [approvedItemEx, consentItemEx, approvedItemEx]
    (by decide) (by decide)

/-- C2: the aggregation scan inspects only index 0 of each result array; an
item with an absent result, or with an unapproved first entry whose reason
object lacks a messageId, is silently skipped: it neither approves nor
triggers consent, the scan does not throw on it, and the overall status
equals the status computed without that item. -/
theorem c2_skip_neutral :
    (∀ (st : Option String) (ia : AssessItem) (r : ResultEntry) (rs rs2 : List ResultEntry),
        ia.result = some (r :: rs) →
        scanItem st ia = scanItem st { ia with result := some (r :: rs2) }) ∧
    (∀ (st : Option String) (ia : AssessItem), skippedItem ia = true →
        scanItem st ia = .ok st) ∧
    (∀ (l1 l2 : List AssessItem) (ia : AssessItem), skippedItem ia = true →
        (assessRun (.resolve (.arr (l1 ++ ia :: l2)))).map JsonResp.status
          = (assessRun (.resolve (.arr (l1 ++ l2)))).map JsonResp.status) := by
  refine ⟨?_, ?_, ?_⟩
  · intro st ia r rs rs2 hres
    simp [scanItem, hres]
  · exact scanItem_skipped
  · intro l1 l2 ia h
    rw [assessRun_arr (l1 ++ ia :: l2), assessRun_arr (l1 ++ l2),
      assessScan_skip none l1 l2 ia h]
    cases hx : assessScan none (l1 ++ l2) with
    | error e => rfl
    | ok st => rfl

/-- Witness for C2: inserting an absent-result item into a response with one
approved item leaves the overall status approved. -/
theorem c2_witness :
    (assessRun (.resolve (.arr [approvedItemEx, { result := none }, approvedItemEx]))).map
        JsonResp.status
      = (assessRun (.resolve (.arr [approvedItemEx, approvedItemEx]))).map JsonResp.status :=
  c2_skip_neutral.2.2 [approvedItemEx] [approvedItemEx] { result := none } (by decide)

/-- C3 counterexample: a collaborator failure that lacks a response field is
caught, but the catch block itself dereferences error.response and throws, so
both public operations reject instead of resolving; hence it is false that
every collaborator failure makes them resolve to an error value. -/
theorem c3_counterexample :
    assessRun (.reject { response := none }) = .error .mk ∧
    getConsentMetadataRun [] (.reject { response := none }) = .error .mk :=
  ⟨rfl, rfl⟩

/-- C3 (amended): for every collaborator failure that carries a response
object, assess and getConsentMetadata catch it and resolve, with the payload
under detail when response.data is present and as a bare error status
otherwise; a failure without a response object instead crashes the catch
block and the promise rejects. -/
theorem c3_error_wrapping (e : JsErrorObj) (resp : ErrResponse)
    (hresp : e.response = some resp) (items : List RequestItem) :
    (∀ d : ErrPayload, resp.data = some d →
        assessRun (.reject e) = .ok { status := "error", detail := some d } ∧
        getConsentMetadataRun items (.reject e)
          = .ok ({ status := "error", detail := some d }, (collectMeta items).items)) ∧
    (resp.data = none →
        assessRun (.reject e) = .ok { status := "error" } ∧
        getConsentMetadataRun items (.reject e)
          = .ok ({ status := "error" }, (collectMeta items).items)) := by
  constructor
  · intro d hd
    constructor
    · simp [assessRun, catchBlock, hresp, hd]
    · simp [getConsentMetadataRun, catchBlock, hresp, hd, Except.map]
  · intro hd
    constructor
    · simp [assessRun, catchBlock, hresp, hd]
    · simp [getConsentMetadataRun, catchBlock, hresp, hd, Except.map]

/-- Witness for C3 (amended): a concrete failure with a structured payload is
surfaced under detail by assess. -/
theorem c3_witness :
    assessRun (.reject { response := some { data := some { body := "remote-err" } } })
      = .ok { status := "error", detail := some { body := "remote-err" } } :=
  ((c3_error_wrapping { response := some { data := some { body := "remote-err" } } }
      { data := some { body := "remote-err" } } rfl []).1 { body := "remote-err" } rfl).1

/-- C4: for every well-formed resolved array in which no first result entry
is approved and no item carries the consent sentinel, including the empty
array, assess resolves with status denied. -/
theorem c4_denied_default (l : List AssessItem)
    (h : ∀ ia ∈ l, wellFormed ia = true ∧ approvedFirst ia = false ∧ consentTrigger ia = false) :
    assessRun (.resolve (.arr l)) = .ok { status := "denied", assessment := some l } := by
  rw [assessRun_arr, assessScan_neutral l none h]
  rfl

/-- Witness for C4: the empty response and a response with one plainly denied
item both yield status denied. -/
theorem c4_witness :
    assessRun (.resolve (.arr [])) = .ok { status := "denied", assessment := some [] } ∧
    assessRun (.resolve (.arr [deniedItemEx]))
      = .ok { status := "denied", assessment := some [deniedItemEx] } :=
  ⟨c4_denied_default [] (by decide), c4_denied_default [deniedItemEx] (by decide)⟩

/-- C5: whenever requestApproval resolves with a non-array value, assess
resolves, without throwing, to a status error object whose data has
messageId INVALID_DATATYPE and whose messageDescription ends with the
received typeof tag; no aggregation is attempted. -/
theorem c5_invalid_datatype (t : String) :
    assessRun (.resolve (.nonArray t))
      = .ok { status := "error",
              data := some { messageId := "INVALID_DATATYPE",
                             messageDescription :=
                               "\x27assessment\x27 is expected to be an array. Received " ++ t } } ∧
    ∃ pre : String,
      "\x27assessment\x27 is expected to be an array. Received " ++ t = pre ++ t :=
  ⟨rfl, ⟨"\x27assessment\x27 is expected to be an array. Received ", rfl⟩⟩

/-- Witness for C5 at the typeof tag object. -/
theorem c5_witness :
    assessRun (.resolve (.nonArray "object"))
      = .ok { status := "error",
              data := some { messageId := "INVALID_DATATYPE",
                             messageDescription :=
                               "\x27assessment\x27 is expected to be an array. Received object" } } :=
  (c5_invalid_datatype "object").1

/-- C6: the requested slot key of each item, computed after access-type
defaulting, is the concatenation purposeId, slash, attributeId or empty,
dot, accessTypeId or empty; the keys are collected into a set, so duplicate
keys within one call collapse to a single entry. -/
theorem c6_slot_key_set (items : List RequestItem) :
    (∀ s : String,
        s ∈ (collectMeta items).itemNameSet ↔
          ∃ item ∈ items,
            s = (normalizeAccessType item).purposeId ++ "/"
                ++ ((normalizeAccessType item).attributeId.getD "") ++ "."
                ++ ((normalizeAccessType item).accessTypeId.getD "")) ∧
    (collectMeta items).itemNameSet.Nodup := by
  constructor
  · intro s
    have h := collectMeta_keys_aux items { purposes := [], itemNameSet := [], items := [] } s
    simpa [collectMeta, slotKey, getOrDefault] using h
  · exact collectMeta_nodup_aux items { purposes := [], itemNameSet := [], items := [] } (by simp)

/-- Witness for C6: the key set of a concrete call stays duplicate-free, and
the key of an item omitting accessTypeId is the concatenation ending in the
filled default. -/
theorem c6_witness :
    ((collectMeta [{ purposeId := "p1", attributeId := some "a1" },
                   { purposeId := "p1", accessTypeId := some "default",
                     attributeId := some "a1" }]).itemNameSet).Nodup ∧
    "p1/a1.default" ∈ (collectMeta [{ purposeId := "p1", attributeId := some "a1" },
                   { purposeId := "p1", accessTypeId := some "default",
                     attributeId := some "a1" }]).itemNameSet :=
  ⟨(c6_slot_key_set _).2,
    ((c6_slot_key_set _).1 "p1/a1.default").mpr
      ⟨{ purposeId := "p1", attributeId := some "a1" }, by simp, by decide⟩⟩

/-- C7: the getConsentMetadata loop rewrites the caller-supplied array in
place: an item with an absent or null accessTypeId gets accessTypeId set to
the literal default before key computation, an item omitting accessTypeId is
treated identically to one supplied with accessTypeId default, and the
purposeId, attributeId and attributeValue of every item are left unchanged. -/
theorem c7_mutation (items : List RequestItem) :
    (collectMeta items).items = items.map normalizeAccessType ∧
    (∀ item : RequestItem, item.accessTypeId = none →
        (normalizeAccessType item).accessTypeId = some "default") ∧
    (∀ (p : String) (a v : Option String),
        normalizeAccessType
            { purposeId := p, accessTypeId := none, attributeId := a, attributeValue := v }
          = normalizeAccessType
              { purposeId := p, accessTypeId := some "default", attributeId := a,
                attributeValue := v }) ∧
    (∀ item : RequestItem,
        (normalizeAccessType item).purposeId = item.purposeId ∧
        (normalizeAccessType item).attributeId = item.attributeId ∧
        (normalizeAccessType item).attributeValue = item.attributeValue) := by
  refine ⟨?_, ?_, ?_, ?_⟩
  · simpa using collectMeta_items_aux items { purposes := [], itemNameSet := [], items := [] }
  · intro item h
    simp [normalizeAccessType, h]
  · intro p a v
    simp [normalizeAccessType]
  · intro item
    unfold normalizeAccessType
    split <;> simp

/-- Witness for C7: a concrete item without accessTypeId is mutated to carry
the default. -/
theorem c7_witness :
    (normalizeAccessType { purposeId := "p9", attributeId := some "a9" }).accessTypeId
      = some "default" :=
  (c7_mutation []).2.1 { purposeId := "p9", attributeId := some "a9" } rfl

/-- C8: construction fails with a ConfigurationError exactly when the config
lacks tenantUrl or the auth object lacks accessToken; on success the three
inputs are stored unchanged as the instance identity, and no collaborator is
involved. -/
theorem c8_constructor (config : Config) (auth : Auth) (context : SubjectContext) :
    ((∃ err, constructPrivacy config auth context = .error err) ↔
      (config.tenantUrl = none ∨ auth.accessToken = none)) ∧
    (∀ inst : PrivacyInstance, constructPrivacy config auth context = .ok inst →
        inst.config = config ∧ inst.auth = auth ∧ inst.context = context) := by
  refine ⟨⟨?_, ?_⟩, ?_⟩
  · rintro ⟨err, herr⟩
    cases hct : config.tenantUrl with
    | none => exact Or.inl rfl
    | some u =>
      cases hat : auth.accessToken with
      | none => exact Or.inr rfl
      | some w => simp [constructPrivacy, hasField, hct, hat] at herr
  · intro hor
    cases hct : config.tenantUrl with
    | none =>
      refine ⟨{ message := "Cannot find property \x27tenantUrl\x27 in configuration settings." }, ?_⟩
      simp [constructPrivacy, hasField, hct]
    | some u =>
      rcases hor with h | h
      · rw [hct] at h
        exact Option.noConfusion h
      · refine ⟨{ message := "Cannot find property \x27accessToken\x27 in auth" }, ?_⟩
        simp [constructPrivacy, hasField, hct, h]
  · intro inst hinst
    cases hct : config.tenantUrl with
    | none => simp [constructPrivacy, hasField, hct] at hinst
    | some u =>
      cases hat : auth.accessToken with
      | none => simp [constructPrivacy, hasField, hct, hat] at hinst
      | some w =>
        simp only [constructPrivacy, hasField, hct, hat, Option.isSome_some, Bool.not_true,
          Bool.false_eq_true, if_false, Except.ok.injEq] at hinst
        subst hinst
        exact ⟨rfl, rfl, rfl⟩

/-- Witness for C8: a complete config and auth construct an instance storing
the inputs. -/
theorem c8_witness :
    ({ config := { tenantUrl := some "https://tenant.example" },
       auth := { accessToken := some "tok" },
       context := {} } : PrivacyInstance).config = { tenantUrl := some "https://tenant.example" }
    ∧ ({ config := { tenantUrl := some "https://tenant.example" },
         auth := { accessToken := some "tok" },
         context := {} } : PrivacyInstance).auth = { accessToken := some "tok" }
    ∧ ({ config := { tenantUrl := some "https://tenant.example" },
         auth := { accessToken := some "tok" },
         context := {} } : PrivacyInstance).context = {} :=
  (c8_constructor { tenantUrl := some "https://tenant.example" }
      { accessToken := some "tok" } {}).2
    { config := { tenantUrl := some "https://tenant.example" },
      auth := { accessToken := some "tok" }, context := {} } rfl

/-- C9: one approved item together with one plainly denied item yields
overall status approved, and status denied is returned only when no item has
an approved first entry and no item triggers consent. -/
theorem c9_approved_not_downgraded :
    (assessRun (.resolve (.arr [approvedItemEx, deniedItemEx]))
        = .ok { status := "approved", assessment := some [approvedItemEx, deniedItemEx] }) ∧
    (∀ (l : List AssessItem) (resp : JsonResp),
        assessRun (.resolve (.arr l)) = .ok resp → resp.status = "denied" →
        ∀ ia ∈ l, approvedFirst ia = false ∧ consentTrigger ia = false) := by
  constructor
  · rfl
  · intro l resp hrun hst
    rw [assessRun_arr] at hrun
    cases hscan : assessScan none l with
    | error e =>
      rw [hscan] at hrun
      replace hrun : (Except.error JsTypeError.mk : Except JsTypeError JsonResp)
          = .ok resp := by
        cases e
        exact hrun
      exact Except.noConfusion hrun
    | ok st =>
      rw [hscan] at hrun
      simp only [Except.ok.injEq] at hrun
      subst hrun
      simp only at hst
      rcases assessScan_ok_range l none st hscan with h1 | h1 | h1
      · subst h1
        exact (assessScan_ok_none l none hscan).2
      · subst h1
        exact absurd hst (by decide)
      · subst h1
        exact absurd hst (by decide)

/-- Witness for C9: instantiating the denied-only direction at a concrete
one-item denied response. -/
theorem c9_witness :
    approvedFirst deniedItemEx = false ∧ consentTrigger deniedItemEx = false :=
  c9_approved_not_downgraded.2 [deniedItemEx]
    { status := "denied", assessment := some [deniedItemEx] } rfl rfl deniedItemEx (by simp)

/-- C10: if requestApproval resolves with an array containing an item whose
result field is an empty array, the loop dereferences the missing first
entry and throws a TypeError, the catch block then reads response.data off
that TypeError and throws again, and the promise rejects instead of
resolving to an error value. -/
theorem c10_empty_result_crash (l : List AssessItem)
    (h : ∃ ia ∈ l, ia.result = some []) :
    assessRun (.resolve (.arr l)) = .error .mk := by
  rw [assessRun_arr, assessScan_error_of_empty l none h]
  rfl

/-- Witness for C10: a single item with an empty result array makes assess
reject. -/
theorem c10_witness :
    assessRun (.resolve (.arr [emptyResultItemEx])) = .error .mk :=
  c10_empty_result_crash [emptyResultItemEx] ⟨emptyResultItemEx, by simp, rfl⟩
